import Mathlib

/-!
Verification of the product-catalog API handler (`src/pages/api/products.js`).

The JavaScript module is shallowly embedded: the external Redis store is a
`Store` record carrying the value under the `"products"` key together with
flags for client initialisation and transient get/set failures; each helper
that performs I/O becomes a pure function from a `Store` to an
`Except String` result paired with the updated `Store` (a thrown `Error`
becomes `.error` carrying its message).  JavaScript's loose values are
embedded as follows: a possibly-`undefined` string field is `Option String`
(with `none` for `undefined`), JS truthiness of such a field is
`jsTruthyStr`, and the `ids` body field (which may be absent, a non-array
value, or an array) is the inductive `IdsValue`.
-/

namespace ProductsApi

/-- A catalog entry.  `title` is `Option String` since `searchProductsByTitle`
guards on `product.title &&`, i.e. the field may be missing. -/
structure Product where
  id : String
  title : Option String
  imageUrl : String
  prodDescription : String
  productUrl : String
deriving Repr, DecidableEq

/-- The external world visible to the module: the Redis value stored under
the key `"products"` (`none` embeds JS `null`/absent), the parsed content of
`data/products.json` (`none` embeds a missing/unreadable/malformed seed
file), and flags for client initialisation and transient get/set failures. -/
structure Store where
  redisOk : Bool
  getOk : Bool
  writeOk : Bool
  stored : Option (List Product)
  seedFile : Option (List Product)
deriving Repr, DecidableEq

/-- JS truthiness of a possibly-`undefined` string: `undefined` and `""` are
falsy, every other string is truthy. -/
def jsTruthyStr : Option String → Bool
  | none => false
  | some s => !s.isEmpty

/-- JS `a || b` on possibly-`undefined` strings: yields `b` when `a` is
falsy, else `a`. -/
def jsStrOr (a b : Option String) : Option String :=
  if jsTruthyStr a then a else b

/-- Tests whether `pat` is an initial run of `s`. -/
def charsBeginWith : List Char → List Char → Bool
  | _, [] => true
  | [], _ :: _ => false
  | a :: s, b :: t => a == b && charsBeginWith s t

/-- Tests whether `pat` occurs as a contiguous run inside `s`. -/
def charsContain : List Char → List Char → Bool
  | [], pat => pat.isEmpty
  | a :: t, pat => charsBeginWith (a :: t) pat || charsContain t pat

/-- JS `s.includes(sub)`: `sub` occurs as a contiguous substring of `s`
(the empty string occurs in every string). -/
def strIncludes (s sub : String) : Bool :=
  charsContain s.data sub.data

/-- JS `s.toLowerCase()`, character by character. -/
def lowerStr (s : String) : String :=
  ⟨s.data.map Char.toLower⟩

/-- Embeds `writeProducts(productsArray)`: store the array under `"products"`.
Throws when the client is uninitialised or the set fails. -/
def writeProducts (st : Store) (productsArray : List Product) : Except String Store :=
  if !st.redisOk then .error "Database connection not available"
  else if !st.writeOk then .error "Failed to save product data."
  else .ok { st with stored := some productsArray }

/-- Embeds `readProducts()`: `redis.get('products')`; on a falsy value, seed from
`data/products.json` via `writeProducts` and return the seed, recovering
from any seeding failure (missing/unreadable/malformed file, or a failed
write) by returning `[]`; on a truthy value, return it directly. -/
def readProducts (st : Store) : Except String (List Product × Store) :=
  if !st.redisOk then .error "Database connection not available"
  else if !st.getOk then .error "Failed to fetch products from database"
  else
    match st.stored with
    | some products => .ok (products, st)
    | none =>
      match st.seedFile with
      | none => .ok ([], st)
      | some initialProducts =>
        match writeProducts st initialProducts with
        | .error _ => .ok ([], st)
        | .ok st' => .ok (initialProducts, st')

/-- Embeds `getProductById(productId)`: linear scan of the catalog, `null` (here
`none`) when absent. -/
def getProductById (st : Store) (productId : String) :
    Except String (Option Product × Store) :=
  match readProducts st with
  | .error e => .error e
  | .ok (products, st') => .ok (products.find? (fun p => p.id == productId), st')

/-- The predicate of `searchProductsByTitle`'s filter:
`product.title && product.title.toLowerCase().includes(searchTermLower)`. -/
def titleMatches (searchTermLower : String) (p : Product) : Bool :=
  match p.title with
  | none => false
  | some t => strIncludes (lowerStr t) searchTermLower

/-- Embeds `searchProductsByTitle(searchTerm)`: full catalog on a falsy term, else
the case-insensitive title-substring filter. -/
def searchProductsByTitle (st : Store) (searchTerm : String) :
    Except String (List Product × Store) :=
  match readProducts st with
  | .error e => .error e
  | .ok (products, st') =>
    if searchTerm.isEmpty then .ok (products, st')
    else .ok (products.filter (titleMatches (lowerStr searchTerm)), st')

/-- The record returned by `deleteProductsByIds`. -/
structure DeleteResult where
  deletedCount : Nat
  deletedIds : List String
  remainingCount : Nat
deriving Repr, DecidableEq

/-- Embeds `deleteProductsByIds(idsToDelete)`: filter out the products whose id is
in the list, write the rest back, and report the ids actually removed.  Any
underlying read/write error is rethrown as `Failed to delete products`. -/
def deleteProductsByIds (st : Store) (idsToDelete : List String) :
    Except String (DeleteResult × Store) :=
  match readProducts st with
  | .error _ => .error "Failed to delete products"
  | .ok (allProducts, st') =>
    let remainingProducts := allProducts.filter (fun p => !(idsToDelete.contains p.id))
    match writeProducts st' remainingProducts with
    | .error _ => .error "Failed to delete products"
    | .ok st'' =>
      let deletedIds :=
        (allProducts.filter (fun p => idsToDelete.contains p.id)).map Product.id
      .ok ({ deletedCount := deletedIds.length
             deletedIds := deletedIds
             remainingCount := remainingProducts.length }, st'')

/-- Process environment: `NODE_ENV === 'development'` and `API_KEY`
(`none` embeds an unset variable). -/
structure Env where
  nodeEnvDevelopment : Bool
  apiKey : Option String
deriving Repr, DecidableEq

/-- The `ids` field of a DELETE body: absent/falsy, a truthy non-array
value, or an array of id strings. -/
inductive IdsValue where
  | absent : IdsValue
  | notArray : IdsValue
  | arr : List String → IdsValue
deriving Repr, DecidableEq

/-- The guard `!ids || !Array.isArray(ids) || ids.length === 0`. -/
def idsInvalid : IdsValue → Bool
  | .absent => true
  | .notArray => true
  | .arr l => l.isEmpty

/-- An incoming request: method, the headers, query parameters and body
fields the module reads.  Absent string-valued fields are `none`. -/
structure Request where
  method : String
  referer : Option String
  host : Option String
  headerApiKey : Option String
  queryApiKey : Option String
  bodyApiKey : Option String
  queryId : Option String
  queryTitle : Option String
  bodyTitle : Option String
  bodyImageUrl : Option String
  bodyDescription : Option String
  bodyProductUrl : Option String
  bodyIds : IdsValue
deriving Repr, DecidableEq

/-- Embeds `req.headers['x-api-key'] || req.query.api_key || (req.body && req.body.api_key)`. -/
def suppliedApiKey (req : Request) : Option String :=
  jsStrOr req.headerApiKey (jsStrOr req.queryApiKey req.bodyApiKey)

/-- Embeds `validateApiKey(req)`: always true in development mode; true for a
truthy `Referer` containing the `Host`; otherwise strict equality of the
supplied key with `process.env.API_KEY`. -/
def validateApiKey (env : Env) (req : Request) : Bool :=
  let apiKey := suppliedApiKey req
  if env.nodeEnvDevelopment then true
  else
    let referer := req.referer.getD ""
    let host := req.host.getD ""
    if !referer.isEmpty && strIncludes referer host then true
    else apiKey == env.apiKey

/-- A JSON response body, one constructor per shape the handler emits. -/
inductive Body where
  /-- Embeds `res.status(200).end()` for OPTIONS. -/
  | empty : Body
  /-- Embeds the `error` object of the 401 response. -/
  | errJson : String → Body
  /-- Embeds the `message` object of 400/404 responses. -/
  | msgJson : String → Body
  /-- A single product (200 by id, 201 created). -/
  | productJson : Product → Body
  /-- An array of products (list/search responses). -/
  | productsJson : List Product → Body
  /-- Embeds the DELETE summary object with its message, counts and ids. -/
  | deleteJson : String → Nat → List String → Nat → Body
  /-- Embeds the `message` plus `error` object of 500 responses. -/
  | errWrap : String → String → Body
  /-- Embeds `res.end(string)` for 405. -/
  | textBody : String → Body
deriving Repr, DecidableEq

/-- The placeholder used when POST supplies no truthy `imageUrl`. -/
def placeholderImageUrl : String :=
  "https://upload.wikimedia.org/wikipedia/commons/1/14/No_Image_Available.jpg"

/-- The product literal built in the POST branch: id is `Date.now().toString()`,
`imageUrl`/`description` are defaulted through JS `||`. -/
def mkNewProduct (now : Nat) (title imageUrl desc productUrl : Option String) :
    Product :=
  { id := toString now
    title := some (title.getD "")
    imageUrl := if jsTruthyStr imageUrl then imageUrl.getD "" else placeholderImageUrl
    prodDescription := if jsTruthyStr desc then desc.getD "" else ""
    productUrl := productUrl.getD "" }

/-- The default export `handler(req, res)`: CORS preflight, the access
gate for non-GET methods, then dispatch on the method.  `now` is the value
of `Date.now()` during the request.  Returns the `(status, body)` pair sent
through `res` together with the resulting store. -/
def handler (env : Env) (now : Nat) (st : Store) (req : Request) :
    (Nat × Body) × Store :=
  if req.method = "OPTIONS" then ((200, .empty), st)
  else if !(req.method == "GET" || validateApiKey env req) then
    ((401, .errJson "Invalid or missing API key"), st)
  else if req.method = "GET" then
    if jsTruthyStr req.queryId then
      let i := req.queryId.getD ""
      match getProductById st i with
      | .error e => ((500, .errWrap "Server error" e), st)
      | .ok (some product, st') => ((200, .productJson product), st')
      | .ok (none, st') =>
        ((404, .msgJson ("Product with ID " ++ i ++ " not found")), st')
    else if jsTruthyStr req.queryTitle then
      match searchProductsByTitle st (req.queryTitle.getD "") with
      | .error e => ((500, .errWrap "Server error" e), st)
      | .ok (filteredProducts, st') => ((200, .productsJson filteredProducts), st')
    else
      match readProducts st with
      | .error e => ((500, .errWrap "Server error" e), st)
      | .ok (products, st') => ((200, .productsJson products), st')
  else if req.method = "POST" then
    if !jsTruthyStr req.bodyTitle || !jsTruthyStr req.bodyProductUrl then
      ((400, .msgJson "Missing required fields: title and productUrl are required"), st)
    else
      let newProduct :=
        mkNewProduct now req.bodyTitle req.bodyImageUrl req.bodyDescription
          req.bodyProductUrl
      match readProducts st with
      | .error e => ((500, .errWrap "Error adding product" e), st)
      | .ok (products, st') =>
        match writeProducts st' (products ++ [newProduct]) with
        | .error e => ((500, .errWrap "Error adding product" e), st')
        | .ok st'' => ((201, .productJson newProduct), st'')
  else if req.method = "DELETE" then
    if idsInvalid req.bodyIds then
      ((400, .msgJson "Request body must include an \"ids\" array with at least one product ID"), st)
    else
      match req.bodyIds with
      | .arr ids =>
        match deleteProductsByIds st ids with
        | .error e => ((500, .errWrap "Error deleting products" e), st)
        | .ok (result, st') =>
          ((200, .deleteJson
              ("Successfully deleted " ++ toString result.deletedCount ++ " products")
              result.deletedCount result.deletedIds result.remainingCount), st')
      | _ => ((400, .msgJson "Request body must include an \"ids\" array with at least one product ID"), st)
  else ((405, .textBody ("Method " ++ req.method ++ " Not Allowed")), st)

/-! ## Sample data for concrete evaluations -/

/-- A sample catalog entry. -/
def sampleP1 : Product :=
  { id := "p1", title := some "Blue Shirt", imageUrl := "i1"
    prodDescription := "d1", productUrl := "u1" }

/-- A sample catalog entry. -/
def sampleP2 : Product :=
  { id := "p2", title := some "Red Hat", imageUrl := "i2"
    prodDescription := "d2", productUrl := "u2" }

/-- A sample catalog entry with no title field. -/
def sampleP3 : Product :=
  { id := "p3", title := none, imageUrl := "i3"
    prodDescription := "d3", productUrl := "u3" }

/-- A healthy store holding the three sample products. -/
def sampleStore : Store :=
  { redisOk := true, getOk := true, writeOk := true
    stored := some [sampleP1, sampleP2, sampleP3], seedFile := none }

/-! ## Helper lemmas -/

/-- A filter and its complement split the length of a list. -/
theorem length_filter_add_length_filter_neg {α : Type} (p : α → Bool) (l : List α) :
    (l.filter p).length + (l.filter (fun a => !(p a))).length = l.length := by
  induction l with
  | nil => simp
  | cons a t ih =>
    cases h : p a <;> simp [List.filter_cons, h] <;> omega

/-! ## Claims -/

/-- C1: for every catalog and id list, `deleteProductsByIds` removes exactly
the products whose id is in the list, keeps the others in their original
relative order, writes the remaining sequence back to the store, and returns
a result whose `deletedIds` are exactly the ids of the removed products and
with `deletedCount + remainingCount` equal to the original catalog length. -/
theorem deleteProductsByIds_spec (st : Store) (ids : List String) (ps : List Product)
    (hr : st.redisOk = true) (hg : st.getOk = true) (hw : st.writeOk = true)
    (hs : st.stored = some ps) :
    deleteProductsByIds st ids =
      .ok ({ deletedCount := ((ps.filter (fun p => ids.contains p.id)).map Product.id).length
             deletedIds := (ps.filter (fun p => ids.contains p.id)).map Product.id
             remainingCount := (ps.filter (fun p => !(ids.contains p.id))).length },
           { st with stored := some (ps.filter (fun p => !(ids.contains p.id))) }) ∧
    ((ps.filter (fun p => ids.contains p.id)).map Product.id).length
      + (ps.filter (fun p => !(ids.contains p.id))).length = ps.length := by
  refine ⟨?_, ?_⟩
  · simp [deleteProductsByIds, readProducts, writeProducts, hr, hg, hw, hs]
  · rw [List.length_map]
    exact length_filter_add_length_filter_neg (fun p => ids.contains p.id) ps

/-- C1 witness: deleting ids `p1` and `p3` from the sample store. -/
theorem deleteProductsByIds_spec_witness :
    deleteProductsByIds sampleStore ["p1", "p3"] =
      .ok ({ deletedCount := 2, deletedIds := ["p1", "p3"], remainingCount := 1 },
           { sampleStore with stored := some [sampleP2] }) ∧ 2 + 1 = 3 := by
  have h := deleteProductsByIds_spec sampleStore ["p1", "p3"]
    [sampleP1, sampleP2, sampleP3] rfl rfl rfl rfl
  refine ⟨?_, rfl⟩
  have h1 := h.1
  simpa [sampleP1, sampleP2, sampleP3] using h1

/-- A development-mode environment (the gate passes unconditionally). -/
def sampleDevEnv : Env := { nodeEnvDevelopment := true, apiKey := none }

/-- A sample POST request with only the required body fields. -/
def samplePostReq : Request :=
  { method := "POST", referer := none, host := none
    headerApiKey := none, queryApiKey := none, bodyApiKey := none
    queryId := none, queryTitle := none
    bodyTitle := some "New Thing", bodyImageUrl := none
    bodyDescription := none, bodyProductUrl := some "https://x.example/p"
    bodyIds := .absent }

/-- C2: an authorized POST whose body has truthy `title` and `productUrl`
and omits `imageUrl` and `description` responds 201 with a product whose id
is `Date.now().toString()`, whose `imageUrl` is the fixed placeholder and
whose description is empty, and the stored catalog becomes the old catalog
with exactly that product appended, one longer. -/
theorem handler_post_spec (env : Env) (now : Nat) (st : Store) (req : Request)
    (ps : List Product)
    (hm : req.method = "POST")
    (hauth : validateApiKey env req = true)
    (ht : jsTruthyStr req.bodyTitle = true)
    (hu : jsTruthyStr req.bodyProductUrl = true)
    (himg : req.bodyImageUrl = none)
    (hdesc : req.bodyDescription = none)
    (hr : st.redisOk = true) (hg : st.getOk = true) (hw : st.writeOk = true)
    (hs : st.stored = some ps) :
    handler env now st req =
      ((201, .productJson
          (mkNewProduct now req.bodyTitle req.bodyImageUrl req.bodyDescription
            req.bodyProductUrl)),
        { st with stored := some (ps ++
            [mkNewProduct now req.bodyTitle req.bodyImageUrl req.bodyDescription
              req.bodyProductUrl]) }) ∧
    (mkNewProduct now req.bodyTitle req.bodyImageUrl req.bodyDescription
        req.bodyProductUrl).id = toString now ∧
    (mkNewProduct now req.bodyTitle req.bodyImageUrl req.bodyDescription
        req.bodyProductUrl).imageUrl = placeholderImageUrl ∧
    (mkNewProduct now req.bodyTitle req.bodyImageUrl req.bodyDescription
        req.bodyProductUrl).prodDescription = "" ∧
    (ps ++ [mkNewProduct now req.bodyTitle req.bodyImageUrl req.bodyDescription
        req.bodyProductUrl]).length = ps.length + 1 := by
  refine ⟨?_, rfl, ?_, ?_, ?_⟩
  · simp [handler, hm, hauth, ht, hu, readProducts, writeProducts, hr, hg, hw, hs]
  · simp [mkNewProduct, himg, jsTruthyStr]
  · simp [mkNewProduct, hdesc, jsTruthyStr]
  · simp

/-- C2 witness: posting to the sample store in development mode at time 42. -/
theorem handler_post_spec_witness :
    handler sampleDevEnv 42 sampleStore samplePostReq =
      ((201, .productJson
          { id := "42", title := some "New Thing"
            imageUrl := placeholderImageUrl, prodDescription := ""
            productUrl := "https://x.example/p" }),
        { sampleStore with stored := some [sampleP1, sampleP2, sampleP3,
            { id := "42", title := some "New Thing"
              imageUrl := placeholderImageUrl, prodDescription := ""
              productUrl := "https://x.example/p" }] }) := by
  have h := handler_post_spec sampleDevEnv 42 sampleStore samplePostReq
    [sampleP1, sampleP2, sampleP3] rfl rfl rfl rfl rfl rfl rfl rfl rfl rfl
  simpa [samplePostReq, mkNewProduct, jsTruthyStr] using h.1

/-- A healthy store holding an empty array under `"products"`, with a
non-empty seed file available. -/
def emptyStoredStore : Store :=
  { redisOk := true, getOk := true, writeOk := true
    stored := some [], seedFile := some [sampleP1] }

/-- A healthy store with nothing under `"products"` and a seed file. -/
def seedStore : Store :=
  { redisOk := true, getOk := true, writeOk := true
    stored := none, seedFile := some [sampleP1] }

/-- C3 counterexample: with an empty array stored under `"products"` and a
non-empty seed file available, `readProducts` returns the empty array as-is
and leaves the store untouched — the seed file is not loaded, written or
returned, contradicting the claim that an empty stored value triggers
seeding. -/
theorem readProducts_empty_not_seeded_cex :
    readProducts emptyStoredStore = .ok ([], emptyStoredStore) ∧
    emptyStoredStore.stored = some [] ∧
    emptyStoredStore.seedFile = some [sampleP1] ∧
    ([] : List Product) ≠ [sampleP1] := by
  exact ⟨rfl, rfl, rfl, by simp⟩

/-- C3 (amended): whenever the value stored under `"products"` is absent
(JS-falsy; a stored empty array is truthy and returned as-is), the seed
file is loaded, parsed, written to the store and returned; and whenever
seeding fails — seed file missing/unreadable/malformed, or the seed write
fails — `readProducts` returns the empty sequence without error. -/
theorem readProducts_seed_spec (st : Store)
    (hr : st.redisOk = true) (hg : st.getOk = true)
    (hs : st.stored = none) :
    (∀ seed, st.seedFile = some seed → st.writeOk = true →
      readProducts st = .ok (seed, { st with stored := some seed })) ∧
    (st.seedFile = none → readProducts st = .ok ([], st)) ∧
    (st.writeOk = false → readProducts st = .ok ([], st)) := by
  refine ⟨?_, ?_, ?_⟩
  · intro seed hseed hw
    simp [readProducts, writeProducts, hr, hg, hs, hseed, hw]
  · intro hseed
    simp [readProducts, hr, hg, hs, hseed]
  · intro hw
    cases hsf : st.seedFile <;>
      simp [readProducts, writeProducts, hr, hg, hs, hsf, hw]

/-- C3 witness: an absent stored value is seeded from the seed file. -/
theorem readProducts_seed_spec_witness :
    readProducts seedStore = .ok ([sampleP1], { seedStore with stored := some [sampleP1] }) :=
  (readProducts_seed_spec seedStore rfl rfl rfl).1 [sampleP1] rfl rfl

/-- C9: seeding is triggered only by a falsy stored value — when the store
holds an empty array under `"products"`, `readProducts` returns that empty
array as-is and the store (hence the seed file and the stored value) is not
touched, whatever the seed file holds. -/
theorem readProducts_empty_array_no_seed (st : Store)
    (hr : st.redisOk = true) (hg : st.getOk = true)
    (hs : st.stored = some []) :
    readProducts st = .ok ([], st) := by
  simp [readProducts, hr, hg, hs]

/-- C9 witness: the empty-array store is returned unchanged. -/
theorem readProducts_empty_array_no_seed_witness :
    readProducts emptyStoredStore = .ok ([], emptyStoredStore) :=
  readProducts_empty_array_no_seed emptyStoredStore rfl rfl rfl

/-- A production environment with a configured secret. -/
def prodEnv : Env := { nodeEnvDevelopment := false, apiKey := some "sek" }

/-- A production environment with no configured secret. -/
def noSecretEnv : Env := { nodeEnvDevelopment := false, apiKey := none }

/-- A cross-origin DELETE request supplying the secret in the header. -/
def keyedReq : Request :=
  { method := "DELETE", referer := none, host := some "api.example"
    headerApiKey := some "sek", queryApiKey := none, bodyApiKey := none
    queryId := none, queryTitle := none
    bodyTitle := none, bodyImageUrl := none
    bodyDescription := none, bodyProductUrl := none
    bodyIds := .arr ["p1"] }

/-- A cross-origin POST request supplying no key anywhere. -/
def noKeyReq : Request :=
  { method := "POST", referer := none, host := some "api.example"
    headerApiKey := none, queryApiKey := none, bodyApiKey := none
    queryId := none, queryTitle := none
    bodyTitle := some "t", bodyImageUrl := none
    bodyDescription := none, bodyProductUrl := some "u"
    bodyIds := .absent }

/-- C4: outside development mode, when the `Referer` does not contain the
`Host`, the gate accepts exactly when the caller-supplied key — header,
else query parameter, else body field — is strictly equal to the configured
secret. -/
theorem validateApiKey_exact_match (env : Env) (req : Request)
    (hdev : env.nodeEnvDevelopment = false)
    (href : strIncludes (req.referer.getD "") (req.host.getD "") = false) :
    validateApiKey env req = true ↔ suppliedApiKey req = env.apiKey := by
  simp [validateApiKey, hdev, href]

/-- C4 witness: the matching header key is accepted in production. -/
theorem validateApiKey_exact_match_witness :
    validateApiKey prodEnv keyedReq = true :=
  (validateApiKey_exact_match prodEnv keyedReq rfl rfl).mpr rfl

/-- C8: outside development mode, with a `Referer` not containing the
`Host`, an unset `API_KEY` and no caller-supplied key in header, query or
body, the gate returns true (`undefined === undefined`), so the request is
not rejected with 401 by the handler. -/
theorem validateApiKey_no_secret (env : Env) (req : Request) (now : Nat) (st : Store)
    (hdev : env.nodeEnvDevelopment = false)
    (href : strIncludes (req.referer.getD "") (req.host.getD "") = false)
    (hkey : env.apiKey = none)
    (hh : req.headerApiKey = none) (hq : req.queryApiKey = none)
    (hb : req.bodyApiKey = none) :
    validateApiKey env req = true ∧ (handler env now st req).1.1 ≠ 401 := by
  have hv : validateApiKey env req = true := by
    simp [validateApiKey, suppliedApiKey, jsStrOr, jsTruthyStr, hdev, href, hkey, hh, hq, hb]
  refine ⟨hv, ?_⟩
  simp only [handler, hv, Bool.or_true, Bool.not_true]
  repeat' split
  all_goals simp_all

/-- C8 witness: a keyless cross-origin POST against the sample store is
authorized when no secret is configured. -/
theorem validateApiKey_no_secret_witness :
    validateApiKey noSecretEnv noKeyReq = true ∧
    (handler noSecretEnv 7 sampleStore noKeyReq).1.1 ≠ 401 :=
  validateApiKey_no_secret noSecretEnv noKeyReq 7 sampleStore rfl rfl rfl rfl rfl rfl

/-- A POST request missing its `title`. -/
def badPostReq : Request :=
  { method := "POST", referer := none, host := none
    headerApiKey := none, queryApiKey := none, bodyApiKey := none
    queryId := none, queryTitle := none
    bodyTitle := none, bodyImageUrl := none
    bodyDescription := none, bodyProductUrl := some "u"
    bodyIds := .absent }

/-- A DELETE request with an empty `ids` array. -/
def badDeleteReq : Request :=
  { method := "DELETE", referer := none, host := none
    headerApiKey := none, queryApiKey := none, bodyApiKey := none
    queryId := none, queryTitle := none
    bodyTitle := none, bodyImageUrl := none
    bodyDescription := none, bodyProductUrl := none
    bodyIds := .arr [] }

/-- C5: an authorized POST lacking a truthy `title` or `productUrl`, and an
authorized DELETE whose `ids` is absent, not an array, or empty, each get a
400 response and leave the store exactly as it was — no mutation occurs. -/
theorem handler_400_no_mutation (env : Env) (now : Nat) (st : Store) (req : Request)
    (hauth : validateApiKey env req = true) :
    (req.method = "POST" →
      (jsTruthyStr req.bodyTitle = false ∨ jsTruthyStr req.bodyProductUrl = false) →
      handler env now st req =
        ((400, .msgJson "Missing required fields: title and productUrl are required"), st)) ∧
    (req.method = "DELETE" → idsInvalid req.bodyIds = true →
      handler env now st req =
        ((400, .msgJson "Request body must include an \"ids\" array with at least one product ID"), st)) := by
  constructor
  · intro hm hbad
    rcases hbad with hb | hb <;> simp [handler, hm, hauth, hb]
  · intro hm hbad
    simp [handler, hm, hauth, hbad]

/-- C5 witness: a title-less POST and an empty-ids DELETE both get 400 and
leave the sample store unchanged. -/
theorem handler_400_no_mutation_witness :
    handler sampleDevEnv 5 sampleStore badPostReq =
      ((400, .msgJson "Missing required fields: title and productUrl are required"), sampleStore) ∧
    handler sampleDevEnv 5 sampleStore badDeleteReq =
      ((400, .msgJson "Request body must include an \"ids\" array with at least one product ID"), sampleStore) :=
  ⟨(handler_400_no_mutation sampleDevEnv 5 sampleStore badPostReq rfl).1 rfl (Or.inl rfl),
   (handler_400_no_mutation sampleDevEnv 5 sampleStore badDeleteReq rfl).2 rfl rfl⟩

/-- C6: on GET with a truthy `id` query parameter, the handler answers 404
when no catalog product has that id — `getProductById` returning the `none`
sentinel rather than an error — and 200 with the first exactly-matching
product otherwise. -/
theorem handler_get_by_id (env : Env) (now : Nat) (st : Store) (req : Request)
    (ps : List Product) (i : String)
    (hm : req.method = "GET") (hq : req.queryId = some i) (hi : i ≠ "")
    (hr : st.redisOk = true) (hg : st.getOk = true) (hs : st.stored = some ps) :
    (ps.find? (fun p => p.id == i) = none →
      getProductById st i = .ok (none, st) ∧
      handler env now st req =
        ((404, .msgJson ("Product with ID " ++ i ++ " not found")), st)) ∧
    (∀ p, ps.find? (fun p => p.id == i) = some p →
      p.id = i ∧ handler env now st req = ((200, .productJson p), st)) := by
  have hie : i.isEmpty = false := by
    cases hie : i.isEmpty
    · rfl
    · exact absurd ((String.isEmpty_iff i).mp hie) hi
  constructor
  · intro hfind
    constructor
    · simp [getProductById, readProducts, hr, hg, hs, hfind]
    · simp [handler, hm, hq, jsTruthyStr, hie, getProductById, readProducts,
        hr, hg, hs, hfind]
  · intro p hfind
    constructor
    · have := List.find?_some hfind
      simpa using this
    · simp [handler, hm, hq, jsTruthyStr, hie, getProductById, readProducts,
        hr, hg, hs, hfind]

/-- C6 witness: id `p2` is found in the sample store, id `zz` is not. -/
theorem handler_get_by_id_witness :
    (getProductById sampleStore "zz" = .ok (none, sampleStore) ∧
      handler sampleDevEnv 3 sampleStore
          { samplePostReq with method := "GET", queryId := some "zz" } =
        ((404, .msgJson "Product with ID zz not found"), sampleStore)) ∧
    (sampleP2.id = "p2" ∧
      handler sampleDevEnv 3 sampleStore
          { samplePostReq with method := "GET", queryId := some "p2" } =
        ((200, .productJson sampleP2), sampleStore)) := by
  constructor
  · exact (handler_get_by_id sampleDevEnv 3 sampleStore
      { samplePostReq with method := "GET", queryId := some "zz" }
      [sampleP1, sampleP2, sampleP3] "zz" rfl rfl (by decide) rfl rfl rfl).1 rfl
  · exact (handler_get_by_id sampleDevEnv 3 sampleStore
      { samplePostReq with method := "GET", queryId := some "p2" }
      [sampleP1, sampleP2, sampleP3] "p2" rfl rfl (by decide) rfl rfl rfl).2
      sampleP2 rfl

/-- C7: with a falsy (empty) search term, `searchProductsByTitle` returns
the full catalog; with a non-empty term it returns exactly the products
whose `title` field exists and contains the term as a case-insensitive
substring, kept in catalog order (the result is a sublist of the catalog). -/
theorem searchProductsByTitle_spec (st : Store) (ps : List Product) (term : String)
    (hr : st.redisOk = true) (hg : st.getOk = true) (hs : st.stored = some ps) :
    searchProductsByTitle st "" = .ok (ps, st) ∧
    (term ≠ "" →
      searchProductsByTitle st term =
        .ok (ps.filter (titleMatches (lowerStr term)), st) ∧
      List.Sublist (ps.filter (titleMatches (lowerStr term))) ps ∧
      (∀ p, p ∈ ps.filter (titleMatches (lowerStr term)) ↔
        p ∈ ps ∧ ∃ t, p.title = some t ∧
          strIncludes (lowerStr t) (lowerStr term) = true)) := by
  refine ⟨?_, ?_⟩
  · have he : "".isEmpty = true := rfl
    simp [searchProductsByTitle, readProducts, hr, hg, hs, he]
  · intro hterm
    have hte : term.isEmpty = false := by
      cases h : term.isEmpty
      · rfl
      · exact absurd ((String.isEmpty_iff term).mp h) hterm
    refine ⟨?_, List.filter_sublist ps, ?_⟩
    · simp [searchProductsByTitle, readProducts, hr, hg, hs, hte]
    · intro p
      simp only [List.mem_filter, titleMatches]
      cases hp : p.title <;> simp [hp]

/-- C7 witness: searching `"shirt"` in the sample store keeps exactly the
product titled `"Blue Shirt"`. -/
theorem searchProductsByTitle_spec_witness :
    searchProductsByTitle sampleStore "shirt" =
      .ok ([sampleP1, sampleP2, sampleP3].filter (titleMatches (lowerStr "shirt")),
        sampleStore) ∧
    [sampleP1, sampleP2, sampleP3].filter (titleMatches (lowerStr "shirt")) =
      [sampleP1] :=
  ⟨((searchProductsByTitle_spec sampleStore [sampleP1, sampleP2, sampleP3] "shirt"
      rfl rfl rfl).2 (by decide)).1, by decide⟩

/-- C10: `mkNewProduct` (the POST-branch product constructor) substitutes
the placeholder `imageUrl` and the empty description whenever the supplied
values are JS-falsy — absent or the explicit empty string alike — and
consequently the created product's `imageUrl` is never empty. -/
theorem mkNewProduct_defaults (now : Nat) (title imageUrl desc productUrl : Option String) :
    (jsTruthyStr imageUrl = false →
      (mkNewProduct now title imageUrl desc productUrl).imageUrl = placeholderImageUrl) ∧
    (jsTruthyStr desc = false →
      (mkNewProduct now title imageUrl desc productUrl).prodDescription = "") ∧
    (mkNewProduct now title imageUrl desc productUrl).imageUrl ≠ "" := by
  refine ⟨?_, ?_, ?_⟩
  · intro h
    simp [mkNewProduct, h]
  · intro h
    simp [mkNewProduct, h]
  · cases himg : jsTruthyStr imageUrl
    · simp [mkNewProduct, himg, placeholderImageUrl]
    · rcases imageUrl with _ | s
      · exact absurd himg (by decide)
      · simp only [mkNewProduct, himg, if_true, Option.getD_some]
        intro he
        rw [he] at himg
        exact absurd himg (by decide)

/-- C10 witness: explicit empty-string `imageUrl` and `description` are
replaced by the placeholder and the empty description. -/
theorem mkNewProduct_defaults_witness :
    (mkNewProduct 9 (some "t") (some "") (some "") (some "u")).imageUrl
      = placeholderImageUrl ∧
    (mkNewProduct 9 (some "t") (some "") (some "") (some "u")).prodDescription = "" ∧
    (mkNewProduct 9 (some "t") (some "") (some "") (some "u")).imageUrl ≠ "" :=
  ⟨(mkNewProduct_defaults 9 (some "t") (some "") (some "") (some "u")).1 (by decide),
   (mkNewProduct_defaults 9 (some "t") (some "") (some "") (some "u")).2.1 (by decide),
   (mkNewProduct_defaults 9 (some "t") (some "") (some "") (some "u")).2.2⟩

end ProductsApi
